import Mathlib

/-!
Shallow embedding of the inference dispatch subsystem of
`src/overshoot/inference_worker.py` (class `OvershootInferenceWorker`),
together with proofs about it: difficulty classification, parameter
resolution, single-request retry with backoff, token streaming, batch
dispatch with per-item fallback, and cluster status.

Remote HTTP calls are modelled as oracle functions returning `Except`
(failure = the `httpx.HTTPError` the code catches).  Wall-clock values
(`datetime.now()` timestamps, measured latencies) are outside the
embedding; the fields the code sets to literal constants are modelled
exactly.
-/

namespace Overshoot

/-- `DifficultyLevel` enum (inference_worker.py lines 19-24). -/
inductive DifficultyLevel where
  | easy
  | medium
  | hard
  | expert
deriving DecidableEq, Repr

/-- `startsWith sub l` holds when `sub` is an initial segment of `l`;
used to express the substring test of the Python `in` operator. -/
def startsWith : List Char → List Char → Bool
  | [], _ => true
  | _ :: _, [] => false
  | c :: cs, d :: ds => c == d && startsWith cs ds

/-- `hasSub sub l` is the Python substring operator `sub in l`:
`sub` occurs contiguously somewhere in `l`. -/
def hasSub (sub : List Char) : List Char → Bool
  | [] => startsWith sub []
  | c :: t => startsWith sub (c :: t) || hasSub sub t

/-- `expert_keywords` (line 87). -/
def expert_keywords : List String :=
  ["prove", "derive", "theorem", "advanced", "complex"]

/-- `hard_keywords` (line 88). -/
def hard_keywords : List String :=
  ["solve", "calculate", "explain", "why", "how"]

/-- `medium_keywords` (line 89). -/
def medium_keywords : List String :=
  ["what", "define", "describe"]

/-- `prompt.lower()` (line 84), as the character list of the prompt
mapped through ASCII lowercasing. -/
def lowerChars (s : String) : List Char :=
  s.data.map Char.toLower

/-- `any(keyword in prompt_lower for keyword in kws)` where
`prompt_lower = prompt.lower()` (lines 84, 91-95). -/
def promptHit (kws : List String) (prompt : String) : Bool :=
  kws.any fun kw => hasSub kw.data (lowerChars prompt)

/-- `_determine_difficulty` (lines 79-98): test the lower-cased prompt
against the keyword sets in precedence order expert, hard, medium,
falling through to easy. -/
def determine_difficulty (prompt : String) : DifficultyLevel :=
  if promptHit expert_keywords prompt then .expert
  else if promptHit hard_keywords prompt then .hard
  else if promptHit medium_keywords prompt then .medium
  else .easy

example : determine_difficulty "Prove the theorem" = .expert := by decide
example : determine_difficulty "What is 6 * 7?" = .medium := by decide
example : determine_difficulty "zzz" = .easy := by decide
example : determine_difficulty "showing" = .hard := by decide

/-- `InferenceRequest` dataclass (lines 27-37).  `difficulty` is
`Optional` in the source with dataclass default `DifficultyLevel.MEDIUM`;
the opaque `context` mapping is modelled as a string association list.
Temperatures are modelled as rationals. -/
structure InferenceRequest where
  prompt : String
  difficulty : Option DifficultyLevel := some .medium
  session_id : Option String := none
  user_id : Option String := none
  context : Option (List (String × String)) := none
  stream : Bool := false
  temperature : Option ℚ := none
  max_tokens : Option Nat := none
deriving DecidableEq, Repr

/-- `InferenceResponse` dataclass (lines 40-49).  The `timestamp` field
(`datetime.now()`, wall clock) is outside the embedding; `latency_ms`
is kept because the degraded batch response sets it to the literal 0. -/
structure InferenceResponse where
  text : String
  model : String
  cluster_id : String
  latency_ms : Nat
  tokens_generated : Nat
  difficulty_used : DifficultyLevel
deriving DecidableEq, Repr

/-- One tier record of
`config["inference"]["test_time_scaling"]["difficulty_levels"][...]`
(lines 100-109): the four fields `_get_inference_params` reads.
`timeout` is the raw configured string, parsed later. -/
structure TierParams where
  temperature : ℚ
  max_tokens : Nat
  num_passes : Nat
  timeout : String
deriving DecidableEq, Repr

/-- The parts of the loaded YAML configuration the dispatcher reads:
the default model, the batch chunk size
(`config["inference"]["batching"]["batch_size"]`, line 273) and the
difficulty tier table.  The source requires all four tiers present
(a plain dict lookup), hence a total function on `DifficultyLevel`. -/
structure ScalingConfig where
  model : String
  batch_size : Nat
  levels : DifficultyLevel → TierParams

/-- `_get_inference_params` (lines 100-109). -/
def get_inference_params (cfg : ScalingConfig) (d : DifficultyLevel) : TierParams :=
  cfg.levels d

/-- Difficulty attribute access on a request at the points where the
source guarantees it is not `None` (after the lazy-resolution step);
the `.medium` default is never consulted on those paths. -/
def reqDifficulty (r : InferenceRequest) : DifficultyLevel :=
  r.difficulty.getD .medium

/-- The lazy difficulty resolution performed at the start of every
dispatch path (`if request.difficulty is None: request.difficulty =
self._determine_difficulty(...)`, lines 126-128, 204-205, 261-262),
as the request-state transformation it applies. -/
def resolveDifficulty (r : InferenceRequest) : InferenceRequest :=
  match r.difficulty with
  | none => { r with difficulty := some (determine_difficulty r.prompt) }
  | some _ => r

/-- `float(params["timeout"].replace("s", ""))` (lines 161, 226):
drop every letter s, then read a number.  Python `float` is modelled on
the nonnegative integer literals the configuration uses; any remaining
non-digit character makes the conversion fail (`ValueError`), modelled
as `none`. -/
def parse_timeout (s : String) : Option Nat :=
  let t := s.data.filter fun c => c ≠ 's'
  if !t.isEmpty && t.all Char.isDigit then
    some (t.foldl (fun acc c => acc * 10 + (c.toNat - 48)) 0)
  else none

example : parse_timeout "30s" = some 30 := by decide
example : parse_timeout "30x" = none := by decide
example : parse_timeout "s30s" = some 30 := by decide

/-- The single-call payload (lines 140-150): tier parameters with the
request-level temperature / max-token overrides applied (lines 134-137),
plus identifiers and context. -/
structure SinglePayload where
  model : String
  prompt : String
  temperature : ℚ
  max_tokens : Nat
  stream : Bool
  num_passes : Nat
  context : List (String × String)
  session_id : Option String
  user_id : Option String
deriving DecidableEq, Repr

/-- Payload construction of `infer` (lines 131-150), for a request whose
difficulty has already been resolved to `d`:
`params = self._get_inference_params(request.difficulty)`, then
request-level `temperature` / `max_tokens` replace the tier values when
present, and `num_passes` comes from the tier unconditionally. -/
def singlePayload (cfg : ScalingConfig) (r : InferenceRequest) (d : DifficultyLevel) :
    SinglePayload :=
  let params := get_inference_params cfg d
  { model := cfg.model
    prompt := r.prompt
    temperature := r.temperature.getD params.temperature
    max_tokens := r.max_tokens.getD params.max_tokens
    stream := r.stream
    num_passes := params.num_passes
    context := r.context.getD []
    session_id := r.session_id
    user_id := r.user_id }

/-- Payload construction of `infer_stream` (lines 207-219): tier
parameters only — the request-level temperature / max-token overrides of
`infer` are not applied on the streaming path — and `stream` forced
`true` (line 201). -/
def streamPayload (cfg : ScalingConfig) (r : InferenceRequest) (d : DifficultyLevel) :
    SinglePayload :=
  let params := get_inference_params cfg d
  { model := cfg.model
    prompt := r.prompt
    temperature := params.temperature
    max_tokens := params.max_tokens
    stream := true
    num_passes := params.num_passes
    context := r.context.getD []
    session_id := r.session_id
    user_id := r.user_id }

/-- The JSON body of a successful `POST /v1/inference` response
(lines 165-174): `text` is required (`data["text"]`), the rest read
with `.get` defaults. -/
structure RemoteData where
  text : String
  model : Option String := none
  cluster_id : Option String := none
  tokens_generated : Option Nat := none
deriving DecidableEq, Repr

/-- How a call to `infer` terminates: a successful response body, the
`httpx.HTTPError` re-raised after the final attempt (line 184), the
generic `Exception` after the loop (line 186, reachable only for
`retries = 0`), or the `ValueError` from a malformed timeout string
(line 161) escaping before any request is sent. -/
inductive InferOutcome where
  | ok (data : RemoteData)
  | httpErr (e : String)
  | exhausted
  | configErr
deriving DecidableEq, Repr

/-- The retry loop of `infer` (lines 155-186) run from attempt index `a`
with `n` attempts remaining, against an oracle `call` giving each
attempt's outcome (`Except.error` = `httpx.HTTPError`).  Returns the
outcome, the list of back-off sleeps performed (`await
asyncio.sleep(2 ** attempt)`, line 182), and the number of remote calls
issued. -/
def inferGo (call : Nat → Except String RemoteData) :
    Nat → Nat → InferOutcome × List Nat × Nat
  | _, 0 => (.exhausted, [], 0)
  | a, 1 =>
    match call a with
    | .ok d => (.ok d, [], 1)
    | .error e => (.httpErr e, [], 1)
  | a, n + 2 =>
    match call a with
    | .ok d => (.ok d, [], 1)
    | .error _e =>
      let r := inferGo call (a + 1) (n + 1)
      (r.1, 2 ^ a :: r.2.1, r.2.2 + 1)

/-- Observable trace of one `infer` call: the request object as mutated
by dispatch, the payload sent, the per-call timeout obtained from the
tier's timeout string, the outcome, the back-off sleeps and the number
of remote calls. -/
structure InferTrace where
  request : InferenceRequest
  payload : SinglePayload
  usedTimeout : Option Nat
  outcome : InferOutcome
  sleeps : List Nat
  calls : Nat
deriving Repr

/-- `infer` (lines 111-186): resolve difficulty lazily, build the
payload with overrides, parse the tier timeout, and run the retry loop.
In the source the timeout string is converted inside the first loop
iteration, before the request is issued; since the conversion is
deterministic, a malformed string aborts with the `ValueError` after
zero remote calls and zero sleeps, which is what the `configErr` branch
records. -/
def infer (cfg : ScalingConfig) (req : InferenceRequest)
    (call : Nat → Except String RemoteData) (retries : Nat := 3) : InferTrace :=
  let r := resolveDifficulty req
  let d := reqDifficulty r
  let params := get_inference_params cfg d
  let payload := singlePayload cfg r d
  match parse_timeout params.timeout with
  | none =>
    { request := r, payload := payload, usedTimeout := none
      outcome := .configErr, sleeps := [], calls := 0 }
  | some t =>
    let g := inferGo call 0 retries
    { request := r, payload := payload, usedTimeout := some t
      outcome := g.1, sleeps := g.2.1, calls := g.2.2 }

/-- One line of the newline-delimited stream body, as classified by the
loop of `infer_stream` (lines 230-240): a falsy (empty) line, a line
`json.loads` rejects, a JSON record with a `"token"` key, one with an
`"error"` key, or JSON with neither key. -/
inductive StreamLine where
  | empty
  | malformed (raw : String)
  | tokenRec (tok : String)
  | errorRec (msg : String)
  | otherRec
deriving DecidableEq, Repr

/-- The line loop of `infer_stream` (lines 230-240): empty lines,
non-JSON lines and keyless records are skipped; a token record yields
its token; an error record raises `Exception("Stream error: ...")`,
ending the sequence.  Returns the tokens yielded and the error message,
if any, that terminated the stream. -/
def streamLineLoop : List StreamLine → List String × Option String
  | [] => ([], none)
  | .empty :: rest => streamLineLoop rest
  | .malformed _ :: rest => streamLineLoop rest
  | .otherRec :: rest => streamLineLoop rest
  | .tokenRec t :: rest =>
    let r := streamLineLoop rest
    (t :: r.1, r.2)
  | .errorRec m :: _ => ([], some ("Stream error: " ++ m))

example : streamLineLoop [.tokenRec "a", .malformed "not json", .tokenRec "b"]
    = (["a", "b"], none) := by decide
example : streamLineLoop [.tokenRec "a", .errorRec "x", .tokenRec "b"]
    = (["a"], some "Stream error: x") := by decide

/-- A JSON value, for the verbatim cluster status report. -/
inductive Json where
  | null
  | str (s : String)
  | num (n : Int)
  | arr (xs : List Json)
  | obj (fields : List (String × Json))

/-- `get_cluster_status` (lines 334-341): the remote `GET
/v1/clusters/status` is an oracle returning either the status JSON or an
`httpx.HTTPError` message; on failure the degraded report
`{"error": str(e), "clusters": []}` is returned instead of raising. -/
def get_cluster_status (remote : Except String Json) : Json :=
  match remote with
  | .ok j => j
  | .error e => .obj [("error", .str e), ("clusters", .arr [])]

/-- One element of the `"requests"` array of the batch payload
(lines 282-289): the tier temperature and max_tokens are looked up from
`_get_inference_params(req.difficulty)` directly — the request-level
overrides of `infer` are not consulted on the batch path. -/
structure BatchPayloadEntry where
  prompt : String
  temperature : ℚ
  max_tokens : Nat
  context : List (String × String)
  session_id : Option String
  user_id : Option String
deriving DecidableEq, Repr

/-- Batch payload entry construction (lines 282-289). -/
def batchPayloadEntry (cfg : ScalingConfig) (r : InferenceRequest) : BatchPayloadEntry :=
  { prompt := r.prompt
    temperature := (get_inference_params cfg (reqDifficulty r)).temperature
    max_tokens := (get_inference_params cfg (reqDifficulty r)).max_tokens
    context := r.context.getD []
    session_id := r.session_id
    user_id := r.user_id }

/-- The arguments of the primary batch chunk HTTP call (lines 294-299):
the payload's per-request entries together with the call's timeout
argument, which is the hard-coded literal `60.0` of line 298 — the tier
timeout string is not consulted on the batch path.  The entries
themselves (lines 282-289) carry no `num_passes` field. -/
def batchChunkRequest (cfg : ScalingConfig) (chunk : List InferenceRequest) :
    List BatchPayloadEntry × Nat :=
  (chunk.map (batchPayloadEntry cfg), 60)

/-- One step of the grouping loop of `batch_infer` (lines 264-267):
append `r` to the group keyed by its difficulty, preserving first-seen
key order (Python dict insertion order). -/
def insertGrouped (gs : List (Option DifficultyLevel × List InferenceRequest))
    (r : InferenceRequest) : List (Option DifficultyLevel × List InferenceRequest) :=
  match gs with
  | [] => [(r.difficulty, [r])]
  | (k, rs) :: rest =>
    if k = r.difficulty then (k, rs ++ [r]) :: rest
    else (k, rs) :: insertGrouped rest r

/-- The `grouped_requests` dict of `batch_infer` (lines 259-267), built
over requests whose difficulty has already been resolved. -/
def groupByDifficulty (reqs : List InferenceRequest) :
    List (Option DifficultyLevel × List InferenceRequest) :=
  reqs.foldl insertGrouped []

/-- Chunking recursion, with an explicit structural fuel bounding the
number of chunks (each chunk consumes at least the head element, so any
fuel of at least the list length is exact). -/
def chunksOfAux (n : Nat) : Nat → List α → List (List α)
  | 0, _ => []
  | _, [] => []
  | fuel + 1, x :: xs =>
    (x :: List.take (n - 1) xs) :: chunksOfAux n fuel (List.drop (n - 1) xs)

/-- `req_group[i:i + batch_size]` chunking (lines 275-276).  Python
`range(0, len, batch_size)` requires a positive step, so the source is
only defined for `n ≥ 1`; this total rendering produces singleton
chunks at `n = 0` and agrees with the source for every `n ≥ 1`. -/
def chunksOf (n : Nat) (l : List α) : List (List α) :=
  chunksOfAux n l.length l

example : chunksOf 2 [1, 2, 3] = [[1, 2], [3]] := by decide
example : chunksOf 2 ([] : List Nat) = [] := by decide
example : chunksOf 3 [1, 2, 3] = [[1, 2, 3]] := by decide

/-- One element of `data["results"]` in a batch response
(lines 302-312): `text` required, the rest read with `.get`
defaults. -/
structure BatchResult where
  text : String
  model : Option String := none
  cluster_id : Option String := none
  latency_ms : Option Nat := none
  tokens_generated : Option Nat := none
deriving DecidableEq, Repr

/-- Response built from one batch result and its positionally matching
request `batch[j]` (lines 304-312). -/
def batchSuccessResponse (cfg : ScalingConfig) (res : BatchResult)
    (r : InferenceRequest) : InferenceResponse :=
  { text := res.text
    model := res.model.getD cfg.model
    cluster_id := res.cluster_id.getD "unknown"
    latency_ms := res.latency_ms.getD 0
    tokens_generated := res.tokens_generated.getD 0
    difficulty_used := reqDifficulty r }

/-- The degraded error response emitted when an individual fallback call
also fails (lines 322-330). -/
def degradedResponse (cfg : ScalingConfig) (msg : String)
    (r : InferenceRequest) : InferenceResponse :=
  { text := "Error: " ++ msg
    model := cfg.model
    cluster_id := "error"
    latency_ms := 0
    tokens_generated := 0
    difficulty_used := reqDifficulty r }

/-- Dispatch of one chunk (lines 278-330).  `benv` is the remote
`POST /v1/inference/batch` oracle: `none` models the `httpx.HTTPError`
the fallback branch catches, `some results` a response whose
`"results"` array is positionally aligned with the chunk (interface
contract of the endpoint).  `senv` is the per-item `self.infer(req)`
fallback oracle: `Except.error msg` models any exception `e2`, turned
into a degraded response. -/
def processChunk (cfg : ScalingConfig)
    (benv : List InferenceRequest → Option (List BatchResult))
    (senv : InferenceRequest → Except String InferenceResponse)
    (chunk : List InferenceRequest) : List InferenceResponse :=
  match benv chunk with
  | some results => List.zipWith (batchSuccessResponse cfg) results chunk
  | none =>
    chunk.map fun r =>
      match senv r with
      | .ok resp => resp
      | .error msg => degradedResponse cfg msg r

/-- `batch_infer` (lines 245-332): resolve difficulties (mutating each
request), group by difficulty, chunk each group by the configured batch
size, dispatch each chunk, and concatenate the responses in processing
order into `all_responses`. -/
def batch_infer (cfg : ScalingConfig)
    (benv : List InferenceRequest → Option (List BatchResult))
    (senv : InferenceRequest → Except String InferenceResponse)
    (reqs : List InferenceRequest) : List InferenceResponse :=
  let groups := groupByDifficulty (reqs.map resolveDifficulty)
  (groups.map fun g =>
    ((chunksOf cfg.batch_size g.2).map (processChunk cfg benv senv)).flatten).flatten

/-! ### Theorems about the classifier -/

/-- C5: the difficulty classifier scans the lower-cased prompt against
the keyword sets in fixed precedence order expert, hard, medium, then
falls through to easy: every prompt containing an expert keyword
classifies as expert regardless of co-occurring lower-tier keywords,
and every prompt containing no keyword of any set classifies as easy.
The function is a total Lean function, hence pure, deterministic and
never failing. -/
theorem c5_classifier_precedence :
    (∀ p : String, (∃ kw ∈ expert_keywords, hasSub kw.data (lowerChars p) = true) →
      determine_difficulty p = .expert) ∧
    (∀ p : String,
      (∀ kw, kw ∈ expert_keywords ++ hard_keywords ++ medium_keywords →
        hasSub kw.data (lowerChars p) = false) →
      determine_difficulty p = .easy) := by
  constructor
  · intro p h
    have hx : promptHit expert_keywords p = true := by
      simpa [promptHit, List.any_eq_true] using h
    simp [determine_difficulty, hx]
  · intro p h
    have hx : promptHit expert_keywords p = false := by
      simp only [promptHit, List.any_eq_false]
      intro kw hkw
      simp [h kw (by simp [hkw])]
    have hh : promptHit hard_keywords p = false := by
      simp only [promptHit, List.any_eq_false]
      intro kw hkw
      simp [h kw (by simp [hkw])]
    have hm : promptHit medium_keywords p = false := by
      simp only [promptHit, List.any_eq_false]
      intro kw hkw
      simp [h kw (by simp [hkw])]
    simp [determine_difficulty, hx, hh, hm]

/-- Witness for C5: a prompt holding the expert keyword prove together
with lower-tier keywords classifies expert, and a prompt matching no
keyword classifies easy. -/
theorem c5_classifier_precedence_witness :
    determine_difficulty "Prove what why" = .expert ∧
    determine_difficulty "zzz" = .easy :=
  ⟨c5_classifier_precedence.1 "Prove what why" ⟨"prove", by decide, by decide⟩,
   c5_classifier_precedence.2 "zzz" (by decide)⟩

/-- C6 counterexample: the prompt What is 6 * 7? does match a medium
keyword (the word what), and the classifier returns medium, not easy as
the claim states. -/
theorem c6_counterexample :
    promptHit medium_keywords "What is 6 * 7?" = true ∧
    determine_difficulty "What is 6 * 7?" = .medium ∧
    DifficultyLevel.medium ≠ DifficultyLevel.easy := by
  refine ⟨by decide, by decide, by decide⟩

/-- C6 amended: with the default keyword sets, the prompt
What is 6 * 7? matches no expert or hard keyword, matches the medium
keyword what, and is classified medium. -/
theorem c6_medium_classification :
    determine_difficulty "What is 6 * 7?" = .medium ∧
    promptHit expert_keywords "What is 6 * 7?" = false ∧
    promptHit hard_keywords "What is 6 * 7?" = false ∧
    promptHit medium_keywords "What is 6 * 7?" = true := by
  refine ⟨by decide, by decide, by decide, by decide⟩

/-- C10: keyword matching is substring containment on the lower-cased
prompt, not whole-word matching: containment of a hard keyword (with no
expert keyword present) yields hard, and containment of a medium
keyword (with no expert or hard keyword present) yields medium, even
when the keyword occurs only inside a longer word. -/
theorem c10_substring_matching :
    (∀ p : String, promptHit expert_keywords p = false →
      (∃ kw ∈ hard_keywords, hasSub kw.data (lowerChars p) = true) →
      determine_difficulty p = .hard) ∧
    (∀ p : String, promptHit expert_keywords p = false →
      promptHit hard_keywords p = false →
      (∃ kw ∈ medium_keywords, hasSub kw.data (lowerChars p) = true) →
      determine_difficulty p = .medium) := by
  constructor
  · intro p hx h
    have hh : promptHit hard_keywords p = true := by
      simpa [promptHit, List.any_eq_true] using h
    simp [determine_difficulty, hx, hh]
  · intro p hx hh h
    have hm : promptHit medium_keywords p = true := by
      simpa [promptHit, List.any_eq_true] using h
    simp [determine_difficulty, hx, hh, hm]

/-- Witness for C10: the prompt showing contains the hard keyword how
only inside the longer word showing and classifies hard; the prompt
blahwhatever contains the medium keyword what only inside whatever and
classifies medium. -/
theorem c10_substring_matching_witness :
    determine_difficulty "showing" = .hard ∧
    determine_difficulty "blahwhatever" = .medium :=
  ⟨c10_substring_matching.1 "showing" (by decide) ⟨"how", by decide, by decide⟩,
   c10_substring_matching.2 "blahwhatever" (by decide) (by decide)
     ⟨"what", by decide, by decide⟩⟩

/-! ### Theorems about streaming and cluster status -/

/-- C7: in the stream line loop, a malformed non-JSON line is silently
skipped and does not terminate the token sequence, while a well-formed
error record terminates the sequence immediately with a StreamError
carrying the server-provided message; the loop makes no retry (it is a
single pass over the line sequence by construction). -/
theorem c7_stream_error_handling :
    (∀ (raw : String) (rest : List StreamLine),
      streamLineLoop (.malformed raw :: rest) = streamLineLoop rest) ∧
    (∀ (msg : String) (rest : List StreamLine),
      streamLineLoop (.errorRec msg :: rest) =
        ([], some ("Stream error: " ++ msg))) :=
  ⟨fun _ _ => rfl, fun _ _ => rfl⟩

/-- C9: get_cluster_status is total (never raises): on a successful
remote call it returns the fleet status JSON verbatim, and on any
failure it returns the degraded report holding the error message and an
empty cluster list. -/
theorem c9_cluster_status_degraded :
    (∀ j : Json, get_cluster_status (.ok j) = j) ∧
    (∀ e : String, get_cluster_status (.error e) =
      .obj [("error", .str e), ("clusters", .arr [])]) :=
  ⟨fun _ => rfl, fun _ => rfl⟩

/-! ### Theorems about the single-dispatch retry loop -/

/-- The retry loop issues at most as many remote calls as it has
attempts remaining. -/
theorem inferGo_calls_le (call : Nat → Except String RemoteData) :
    ∀ (n a : Nat), (inferGo call a n).2.2 ≤ n := by
  intro n
  induction n with
  | zero => intro a; simp [inferGo]
  | succ m ih =>
    intro a
    cases m with
    | zero =>
      cases hc : call a with
      | ok d => simp [inferGo, hc]
      | error e => simp [inferGo, hc]
    | succ k =>
      cases hc : call a with
      | ok d => simp [inferGo, hc]
      | error e =>
        have := ih (a + 1)
        simp only [inferGo, hc]
        omega

/-- When every attempt fails, the loop started at attempt index `a`
with `m + 1` attempts remaining makes exactly `m + 1` calls, sleeps
`2 ^ i` after each attempt `i` except the last, and ends by raising the
final transport error. -/
theorem inferGo_all_fail (call : Nat → Except String RemoteData) :
    ∀ (m a : Nat), (∀ i, i ≤ m → ∃ e, call (a + i) = Except.error e) →
      ∃ e, inferGo call a (m + 1) =
        (.httpErr e, (List.range' a m).map (2 ^ ·), m + 1) := by
  intro m
  induction m with
  | zero =>
    intro a h
    obtain ⟨e, he⟩ := h 0 (Nat.le_refl 0)
    rw [Nat.add_zero] at he
    exact ⟨e, by simp [inferGo, he]⟩
  | succ k ih =>
    intro a h
    obtain ⟨e, he⟩ := h 0 (Nat.zero_le _)
    rw [Nat.add_zero] at he
    obtain ⟨e2, he2⟩ := ih (a + 1) fun i hi => by
      obtain ⟨e3, he3⟩ := h (i + 1) (by omega)
      exact ⟨e3, by rw [← he3]; congr 1; omega⟩
    refine ⟨e2, ?_⟩
    simp only [inferGo, he, he2]
    rfl

/-- C2: for every request and every `retries ≥ 1` (default 3, with a
well-formed tier timeout so that dispatch is reached), `infer` issues
at most `retries` remote calls; and when every attempt fails
transiently, it makes exactly `retries` calls, sleeps `2 ^ i` time
units after each attempt `i` for `i = 0, ..., retries - 2`, and raises
the transport error after the final attempt with no further wait. -/
theorem c2_retry_backoff :
    ∀ (cfg : ScalingConfig) (req : InferenceRequest)
      (call : Nat → Except String RemoteData) (retries : Nat),
      1 ≤ retries →
      (∃ t, parse_timeout (get_inference_params cfg
        (reqDifficulty (resolveDifficulty req))).timeout = some t) →
      (infer cfg req call retries).calls ≤ retries ∧
      ((∀ i, i < retries → ∃ e, call i = Except.error e) →
        (∃ e, (infer cfg req call retries).outcome = .httpErr e) ∧
        (infer cfg req call retries).sleeps =
          (List.range (retries - 1)).map (2 ^ ·) ∧
        (infer cfg req call retries).calls = retries) := by
  intro cfg req call retries h1 ⟨t, ht⟩
  simp only [infer, ht]
  constructor
  · exact inferGo_calls_le call retries 0
  · intro hfail
    obtain ⟨m, rfl⟩ : ∃ m, retries = m + 1 := ⟨retries - 1, by omega⟩
    obtain ⟨e, he⟩ := inferGo_all_fail call m 0 fun i hi => by
      simpa using hfail i (by omega)
    rw [he]
    refine ⟨⟨e, rfl⟩, ?_, rfl⟩
    simp [List.range_eq_range']

/-- A sample tier record with a well-formed timeout string. -/
def tier30s : TierParams :=
  { temperature := 1, max_tokens := 100, num_passes := 1, timeout := "30s" }

/-- A sample configuration: every tier resolves to `tier30s`. -/
def cfgA : ScalingConfig :=
  { model := "m", batch_size := 2, levels := fun _ => tier30s }

/-- A sample configuration whose tiers carry a malformed timeout. -/
def cfgB : ScalingConfig :=
  { model := "m", batch_size := 2, levels := fun _ => { tier30s with timeout := "30x" } }

/-- A minimal request (difficulty left at its dataclass default). -/
def req0 : InferenceRequest := { prompt := "hi" }

/-- A remote oracle on which every attempt fails. -/
def callBoom : Nat → Except String RemoteData := fun _ => .error "boom"

/-- Witness for C2: with three attempts that all fail, `infer` makes
exactly three calls, sleeps 1 then 2 time units, and ends in the raised
transport error. -/
theorem c2_retry_backoff_witness :
    (infer cfgA req0 callBoom 3).calls = 3 ∧
    (infer cfgA req0 callBoom 3).sleeps = [1, 2] ∧
    (∃ e, (infer cfgA req0 callBoom 3).outcome = .httpErr e) := by
  have h := c2_retry_backoff cfgA req0 callBoom 3 (by decide) ⟨30, by decide⟩
  obtain ⟨hex, hs, hc⟩ := h.2 fun i _ => ⟨"boom", rfl⟩
  refine ⟨hc, ?_, hex⟩
  rw [hs]; decide

/-- C8: a tier timeout string 30s resolves to the numeric timeout 30;
a malformed string such as 30x fails the conversion, and `infer` then
aborts with the configuration error after zero remote calls and zero
sleeps — the call is never dispatched. -/
theorem c8_timeout_resolution :
    parse_timeout "30s" = some 30 ∧
    parse_timeout "30x" = none ∧
    (∀ (cfg : ScalingConfig) (req : InferenceRequest)
      (call : Nat → Except String RemoteData) (retries t : Nat),
      parse_timeout (get_inference_params cfg
        (reqDifficulty (resolveDifficulty req))).timeout = some t →
      (infer cfg req call retries).usedTimeout = some t) ∧
    (∀ (cfg : ScalingConfig) (req : InferenceRequest)
      (call : Nat → Except String RemoteData) (retries : Nat),
      parse_timeout (get_inference_params cfg
        (reqDifficulty (resolveDifficulty req))).timeout = none →
      (infer cfg req call retries).outcome = .configErr ∧
      (infer cfg req call retries).calls = 0 ∧
      (infer cfg req call retries).sleeps = []) := by
  refine ⟨by decide, by decide, ?_, ?_⟩
  · intro cfg req call retries t ht
    simp [infer, ht]
  · intro cfg req call retries ht
    simp [infer, ht]

/-- Witness for C8: under `cfgA` (timeout 30s) the dispatched call uses
the numeric timeout 30; under `cfgB` (timeout 30x) `infer` ends in the
configuration error having made no remote call. -/
theorem c8_timeout_resolution_witness :
    (infer cfgA req0 callBoom 3).usedTimeout = some 30 ∧
    (infer cfgB req0 callBoom 3).outcome = .configErr ∧
    (infer cfgB req0 callBoom 3).calls = 0 := by
  refine ⟨c8_timeout_resolution.2.2.1 cfgA req0 callBoom 3 30 (by decide), ?_, ?_⟩
  · exact (c8_timeout_resolution.2.2.2 cfgB req0 callBoom 3 (by decide)).1
  · exact (c8_timeout_resolution.2.2.2 cfgB req0 callBoom 3 (by decide)).2.1

/-! ### Theorems about batch dispatch -/

/-- A chunk dispatch yields exactly one response per request of the
chunk, on the success path (positionally aligned results) as well as on
the fallback path. -/
theorem processChunk_length (cfg : ScalingConfig)
    (benv : List InferenceRequest → Option (List BatchResult))
    (senv : InferenceRequest → Except String InferenceResponse)
    (halign : ∀ chunk res, benv chunk = some res → res.length = chunk.length)
    (c : List InferenceRequest) :
    (processChunk cfg benv senv c).length = c.length := by
  unfold processChunk
  cases hb : benv c with
  | some res => simp [List.length_zipWith, halign c res hb]
  | none => simp

/-- The chunks of a list carry exactly its elements: the chunk lengths
sum to the list length (fuel version). -/
theorem chunksOfAux_sum_length (n : Nat) :
    ∀ (fuel : Nat) (l : List α), l.length ≤ fuel →
      ((chunksOfAux n fuel l).map List.length).sum = l.length := by
  intro fuel
  induction fuel with
  | zero =>
    intro l h
    cases l with
    | nil => simp [chunksOfAux]
    | cons x xs => simp at h
  | succ f ih =>
    intro l h
    cases l with
    | nil => simp [chunksOfAux]
    | cons x xs =>
      simp only [List.length_cons] at h
      have hrec := ih (List.drop (n - 1) xs) (by simp only [List.length_drop]; omega)
      simp only [chunksOfAux, List.map_cons, List.sum_cons, hrec]
      simp only [List.length_cons, List.length_take, List.length_drop]
      omega

/-- The chunk lengths of `chunksOf` sum to the list length. -/
theorem chunksOf_sum_length (n : Nat) (l : List α) :
    ((chunksOf n l).map List.length).sum = l.length :=
  chunksOfAux_sum_length n l.length l (Nat.le_refl _)

/-- Total number of requests held in a grouping. -/
def groupsTotal (gs : List (Option DifficultyLevel × List InferenceRequest)) : Nat :=
  (gs.map fun g => g.2.length).sum

/-- Inserting a request into the grouping grows the total by one. -/
theorem insertGrouped_total (gs : List (Option DifficultyLevel × List InferenceRequest))
    (r : InferenceRequest) :
    groupsTotal (insertGrouped gs r) = groupsTotal gs + 1 := by
  induction gs with
  | nil => simp [insertGrouped, groupsTotal]
  | cons g rest ih =>
    obtain ⟨k, rs⟩ := g
    by_cases h : k = r.difficulty
    · simp only [insertGrouped, if_pos h, groupsTotal, List.map_cons, List.sum_cons,
        List.length_append, List.length_cons, List.length_nil]
      omega
    · simp only [insertGrouped, if_neg h, groupsTotal, List.map_cons, List.sum_cons] at ih ⊢
      omega

/-- Folding the grouping loop over a request list grows the total by
the number of requests. -/
theorem groupBy_total :
    ∀ (reqs : List InferenceRequest)
      (gs : List (Option DifficultyLevel × List InferenceRequest)),
      groupsTotal (reqs.foldl insertGrouped gs) = groupsTotal gs + reqs.length := by
  intro reqs
  induction reqs with
  | nil => intro gs; simp
  | cons r rest ih =>
    intro gs
    simp only [List.foldl_cons, ih, insertGrouped_total, List.length_cons]
    omega

/-- C1: batch dispatch is total and yields exactly one response per
input request.  Under the batch endpoint contract that a successful
chunk response is positionally aligned with the chunk, the output
length equals the input length; and when every remote batch call fails
and every per-item fallback call fails too, every emitted response is
the degraded response: cluster id error, zero latency, zero tokens, and
an error-description text. -/
theorem c1_batch_totality :
    ∀ (cfg : ScalingConfig)
      (benv : List InferenceRequest → Option (List BatchResult))
      (senv : InferenceRequest → Except String InferenceResponse)
      (reqs : List InferenceRequest),
      (∀ chunk res, benv chunk = some res → res.length = chunk.length) →
      (batch_infer cfg benv senv reqs).length = reqs.length ∧
      ((∀ c, benv c = none) → (∀ r, ∃ m, senv r = Except.error m) →
        ∀ resp ∈ batch_infer cfg benv senv reqs,
          resp.cluster_id = "error" ∧ resp.latency_ms = 0 ∧
          resp.tokens_generated = 0 ∧ ∃ m, resp.text = "Error: " ++ m) := by
  intro cfg benv senv reqs halign
  constructor
  · simp only [batch_infer]
    rw [List.length_flatten, List.map_map]
    have hg : ∀ g ∈ groupByDifficulty (reqs.map resolveDifficulty),
        (List.length ∘ fun g =>
          ((chunksOf cfg.batch_size g.2).map (processChunk cfg benv senv)).flatten) g
          = g.2.length := by
      intro g _
      simp only [Function.comp_apply]
      rw [List.length_flatten, List.map_map]
      have hpt : (chunksOf cfg.batch_size g.2).map
            (List.length ∘ processChunk cfg benv senv)
          = (chunksOf cfg.batch_size g.2).map List.length :=
        List.map_eq_map_iff.mpr fun c _ =>
          processChunk_length cfg benv senv halign c
      rw [hpt, chunksOf_sum_length]
    rw [List.map_eq_map_iff.mpr hg]
    have h3 := groupBy_total (reqs.map resolveDifficulty) []
    simp only [groupByDifficulty, groupsTotal] at h3 ⊢
    simpa using h3
  · intro hb hs resp hmem
    simp only [batch_infer, List.mem_flatten, List.mem_map] at hmem
    obtain ⟨outer, ⟨g, hgmem, rfl⟩, hmem2⟩ := hmem
    obtain ⟨pc, hpc, hrin⟩ := List.mem_flatten.mp hmem2
    obtain ⟨chunk, hck, rfl⟩ := List.mem_map.mp hpc
    simp only [processChunk, hb chunk] at hrin
    obtain ⟨r, hr, rfl⟩ := List.mem_map.mp hrin
    obtain ⟨m, hm⟩ := hs r
    rw [hm]
    exact ⟨rfl, rfl, rfl, m, rfl⟩

/-- A remote batch oracle on which every chunk call fails. -/
def benvNone : List InferenceRequest → Option (List BatchResult) := fun _ => none

/-- A fallback oracle on which every single call fails too. -/
def senvDown : InferenceRequest → Except String InferenceResponse :=
  fun _ => .error "down"

/-- Three sample requests. -/
def reqs3 : List InferenceRequest :=
  [{ prompt := "a" }, { prompt := "b" }, { prompt := "c" }]

/-- Witness for C1: three requests, batch size two, every remote call
failing — batch dispatch still returns three responses, all of them
degraded. -/
theorem c1_batch_totality_witness :
    (batch_infer cfgA benvNone senvDown reqs3).length = 3 ∧
    ∀ resp ∈ batch_infer cfgA benvNone senvDown reqs3,
      resp.cluster_id = "error" ∧ resp.latency_ms = 0 ∧
      resp.tokens_generated = 0 ∧ ∃ m, resp.text = "Error: " ++ m := by
  have h := c1_batch_totality cfgA benvNone senvDown reqs3
    (fun c res hc => nomatch hc)
  exact ⟨h.1, h.2 (fun _ => rfl) (fun r => ⟨"down", rfl⟩)⟩

/-! ### Theorems about lazy difficulty resolution (request mutation) -/

/-- The request-state mutation performed by `infer` is exactly the lazy
difficulty resolution, on both the dispatched and the
configuration-error branch. -/
theorem infer_request (cfg : ScalingConfig) (req : InferenceRequest)
    (call : Nat → Except String RemoteData) (retries : Nat) :
    (infer cfg req call retries).request = resolveDifficulty req := by
  simp only [infer]
  split <;> rfl

/-- A request with an expert prompt constructed without a pre-set
difficulty (the dataclass default). -/
def reqProve : InferenceRequest := { prompt := "prove the theorem" }

/-- C3 counterexample: a request constructed without a pre-set
difficulty carries the dataclass default medium, so its first dispatch
performs no classification at all: the classifier would say expert for
this prompt, yet after dispatch the request still holds medium. -/
theorem c3_counterexample :
    (infer cfgA reqProve callBoom 3).request.difficulty = some .medium ∧
    determine_difficulty reqProve.prompt = .expert ∧
    DifficultyLevel.medium ≠ DifficultyLevel.expert := by
  refine ⟨?_, by decide, by decide⟩
  rw [infer_request]
  decide

/-- C3 amended: classification happens on first dispatch only for a
request whose difficulty field is explicitly `None`; the classified
difficulty is then written back onto the request.  A request whose
difficulty is already set (including the dataclass default medium) is
dispatched unchanged, and resolution is idempotent, so repeated
dispatch of the same request object never re-derives a difficulty. -/
theorem c3_lazy_resolution :
    ∀ (cfg : ScalingConfig) (req : InferenceRequest)
      (call : Nat → Except String RemoteData) (retries : Nat),
      (req.difficulty = none →
        (infer cfg req call retries).request.difficulty =
          some (determine_difficulty req.prompt)) ∧
      (req.difficulty ≠ none → (infer cfg req call retries).request = req) ∧
      resolveDifficulty (resolveDifficulty req) = resolveDifficulty req := by
  intro cfg req call retries
  refine ⟨?_, ?_, ?_⟩
  · intro h
    rw [infer_request]
    simp [resolveDifficulty, h]
  · intro h
    rw [infer_request]
    cases hd : req.difficulty with
    | none => exact absurd hd h
    | some d => simp [resolveDifficulty, hd]
  · cases hd : req.difficulty with
    | none => simp [resolveDifficulty, hd]
    | some d => simp [resolveDifficulty, hd]

/-- A request whose difficulty is explicitly `None`. -/
def reqNone : InferenceRequest := { prompt := "prove it", difficulty := none }

/-- Witness for the amended C3: dispatching a difficulty-`None` request
writes the classified difficulty (here expert) back onto it, and
dispatching a request with a set difficulty leaves the request
untouched. -/
theorem c3_lazy_resolution_witness :
    (infer cfgA reqNone callBoom 3).request.difficulty = some .expert ∧
    (infer cfgA reqProve callBoom 3).request = reqProve := by
  constructor
  · have h := (c3_lazy_resolution cfgA reqNone callBoom 3).1 rfl
    rw [h]; decide
  · exact (c3_lazy_resolution cfgA reqProve callBoom 3).2.1 (by decide)

/-! ### Theorems about parameter overrides -/

/-- A request carrying temperature and max-token overrides. -/
def reqOverride : InferenceRequest :=
  { prompt := "hi", temperature := some 2, max_tokens := some 7 }

/-- C4 counterexample: on the batch path and on the streaming path the
outgoing call parameters come from the tier defaults even when the
request carries overrides — here the tier temperature 1 and max_tokens
100 are sent although the request overrides them with 2 and 7 — and the
batch chunk call does not take its timeout from the tier configuration
either: the tier timeout resolves to 30 while the chunk call uses the
hard-coded 60. -/
theorem c4_counterexample :
    reqOverride.temperature = some 2 ∧
    reqOverride.max_tokens = some 7 ∧
    (batchPayloadEntry cfgA reqOverride).temperature = 1 ∧
    (batchPayloadEntry cfgA reqOverride).max_tokens = 100 ∧
    (streamPayload cfgA reqOverride .medium).temperature = 1 ∧
    (streamPayload cfgA reqOverride .medium).max_tokens = 100 ∧
    (1 : ℚ) ≠ 2 ∧
    (batchChunkRequest cfgA [reqOverride]).2 = 60 ∧
    parse_timeout (get_inference_params cfgA .medium).timeout = some 30 ∧
    (60 : Nat) ≠ 30 := by
  refine ⟨rfl, rfl, by decide, by decide, by decide, by decide, by decide,
    rfl, by decide, by decide⟩

/-- C4 amended: request-level temperature / max-token overrides take
precedence over the tier defaults only on the single-dispatch path
(hence also on the per-item fallback calls of batch dispatch, which go
through `infer`); the primary batch chunk payload and the streaming
payload always send the tier defaults, ignoring the overrides.  No
request-level override exists for `num_passes` or timeout, but those
two are tier-controlled only on the single and stream paths: the single
and stream payloads take `num_passes` from the tier and the single and
stream calls parse their timeout from the tier timeout string, while
the batch chunk payload carries no `num_passes` field at all and the
batch chunk call uses the hard-coded 60-unit timeout of line 298
instead of the tier timeout. -/
theorem c4_override_precedence :
    ∀ (cfg : ScalingConfig) (r : InferenceRequest) (d : DifficultyLevel),
      (∀ t, r.temperature = some t → (singlePayload cfg r d).temperature = t) ∧
      (∀ m, r.max_tokens = some m → (singlePayload cfg r d).max_tokens = m) ∧
      (r.temperature = none →
        (singlePayload cfg r d).temperature = (get_inference_params cfg d).temperature) ∧
      (r.max_tokens = none →
        (singlePayload cfg r d).max_tokens = (get_inference_params cfg d).max_tokens) ∧
      (singlePayload cfg r d).num_passes = (get_inference_params cfg d).num_passes ∧
      (batchPayloadEntry cfg r).temperature =
        (get_inference_params cfg (reqDifficulty r)).temperature ∧
      (batchPayloadEntry cfg r).max_tokens =
        (get_inference_params cfg (reqDifficulty r)).max_tokens ∧
      (streamPayload cfg r d).temperature = (get_inference_params cfg d).temperature ∧
      (streamPayload cfg r d).max_tokens = (get_inference_params cfg d).max_tokens ∧
      (streamPayload cfg r d).num_passes = (get_inference_params cfg d).num_passes ∧
      (∀ (call : Nat → Except String RemoteData) (retries : Nat),
        (infer cfg r call retries).usedTimeout =
          parse_timeout (get_inference_params cfg
            (reqDifficulty (resolveDifficulty r))).timeout) ∧
      (∀ chunk : List InferenceRequest,
        (batchChunkRequest cfg chunk).1 = chunk.map (batchPayloadEntry cfg) ∧
        (batchChunkRequest cfg chunk).2 = 60) := by
  intro cfg r d
  refine ⟨?_, ?_, ?_, ?_, rfl, rfl, rfl, rfl, rfl, rfl, ?_, fun _ => ⟨rfl, rfl⟩⟩
  · intro t ht; simp [singlePayload, ht]
  · intro m hm; simp [singlePayload, hm]
  · intro ht; simp [singlePayload, ht]
  · intro hm; simp [singlePayload, hm]
  · intro call retries
    simp only [infer]
    cases hpt : parse_timeout (get_inference_params cfg
        (reqDifficulty (resolveDifficulty r))).timeout with
    | none => simp [hpt]
    | some t => simp [hpt]

/-- Witness for the amended C4: with tier temperature 1 / max_tokens
100 and request overrides 2 / 7, the single-dispatch payload carries
the overrides while batch and stream payloads carry the tier defaults,
and the batch chunk call carries the fixed timeout 60. -/
theorem c4_override_precedence_witness :
    (singlePayload cfgA reqOverride .medium).temperature = 2 ∧
    (singlePayload cfgA reqOverride .medium).max_tokens = 7 ∧
    (singlePayload cfgA req0 .medium).temperature = 1 ∧
    (batchPayloadEntry cfgA reqOverride).temperature = 1 ∧
    (streamPayload cfgA reqOverride .medium).temperature = 1 ∧
    (batchChunkRequest cfgA [reqOverride]).2 = 60 := by
  have h := c4_override_precedence cfgA reqOverride .medium
  have h0 := c4_override_precedence cfgA req0 .medium
  refine ⟨h.1 2 rfl, h.2.1 7 rfl, ?_, ?_, ?_, ?_⟩
  · rw [h0.2.2.1 rfl]; decide
  · rw [h.2.2.2.2.2.1]; decide
  · rw [h.2.2.2.2.2.2.2.1]; decide
  · exact (h.2.2.2.2.2.2.2.2.2.2.2 [reqOverride]).2

end Overshoot
